import Mathlib

/-!
Verification of the gallery-card UI scenario runner
(`jules-scratch/verification/verify_gallery_card_changes.py`).

The script drives a browser-automation collaborator (Playwright) through a
fixed login flow.  We embed the runner shallowly: each collaborator call the
script makes becomes an `Event` carrying exactly the arguments the source
passes; the body of `run` becomes the fixed list `runSteps` of events in
source order; exceptional control flow is modelled by an environment
`failAt : Option Nat` naming the position of the step at which the
collaborator raises, and `execTrace` / `execError` execute the steps in
order, stopping at the raising step.  The surrounding
`with sync_playwright() as playwright:` block is modelled by appending the
context-manager teardown event `stopPlaywright` to every trace and
propagating the run's error unchanged to the process boundary.
-/

namespace PhotoPortal

/-- URL of the initial navigation (line 9 of the script). -/
def loginURL : String := "http://localhost:3000/login"

/-- The bare base URL of the target application (spec §8). -/
def baseURL : String := "http://localhost:3000"

/-- URL awaited after login (line 15 of the script). -/
def dashboardURL : String := "http://localhost:3000/dashboard"

/-- Accessible label of the first identity input (line 10). -/
def emailLabel : String := "Email"

/-- Accessible label of the second identity input (line 11). -/
def passwordLabel : String := "Password"

/-- Value filled into the Email input (line 10). -/
def emailValue : String := "photographer@yarrow.com"

/-- Value filled into the Password input (line 11). -/
def passwordValue : String := "yarrow"

/-- Accessible role of the submit control (line 12). -/
def buttonRole : String := "button"

/-- Visible name of the submit control (line 12). -/
def loginButtonName : String := "Login"

/-- Structural selector of the content-readiness wait (line 16). -/
def cardSelector : String := ".card"

/-- Explicit timeout of the selector wait, in milliseconds (line 16). -/
def cardTimeoutMs : Nat := 10000

/-- Fixed output path of the screenshot artifact (line 19). -/
def screenshotPath : String := "jules-scratch/verification/verification.png"

/-- One collaborator call made by the script, carrying exactly the
arguments the source passes.  `screenshot`'s `fullPageArg` is the optional
`full_page` keyword argument: the source passes only `path=`, so the
argument is `none`. -/
inductive Event where
  | launch (headless : Bool)
  | newContext
  | newPage
  | gotoPage (url : String)
  | fillByLabel (label value : String)
  | clickByRole (role name : String)
  | waitForURL (url : String) (timeoutMs : Option Nat)
  | waitForSelector (sel : String) (timeoutMs : Option Nat)
  | screenshot (path : String) (fullPageArg : Option Bool)
  | closeBrowser
  | stopPlaywright
  deriving DecidableEq

/-- The body of `run(playwright)`, line by line: launch the headless
browser, open an isolated context, open a page, navigate to the login page,
fill both identity fields, click the Login button, wait for the dashboard
URL, wait for a `.card` element with a 10000 ms timeout, capture the
screenshot, and close the browser. -/
def runSteps : List Event :=
  [ Event.launch true,
    Event.newContext,
    Event.newPage,
    Event.gotoPage loginURL,
    Event.fillByLabel emailLabel emailValue,
    Event.fillByLabel passwordLabel passwordValue,
    Event.clickByRole buttonRole loginButtonName,
    Event.waitForURL dashboardURL none,
    Event.waitForSelector cardSelector (some cardTimeoutMs),
    Event.screenshot screenshotPath none,
    Event.closeBrowser ]

/-- Sequential execution of a list of steps starting at position `i`, in an
environment where the step at position `failAt` (if any) raises: each step
is attempted in order, and an attempted step enters the trace; when a step
raises, execution stops there (the source has no try/except, so nothing
after the raising statement in `run` executes). -/
def execTrace : Nat → Option Nat → List Event → List Event
  | _, _, [] => []
  | i, failAt, e :: rest =>
    if failAt = some i then [e] else e :: execTrace (i + 1) failAt rest

/-- The error produced by sequential execution: the position of the raising
step, when one raises within the list. -/
def execError : Nat → Option Nat → List Event → Option Nat
  | _, _, [] => none
  | i, failAt, _e :: rest =>
    if failAt = some i then some i else execError (i + 1) failAt rest

/-- The events `run` attempts, in order, in environment `failAt`. -/
def runTrace (failAt : Option Nat) : List Event :=
  execTrace 0 failAt runSteps

/-- The error `run` raises in environment `failAt`, if any. -/
def runError (failAt : Option Nat) : Option Nat :=
  execError 0 failAt runSteps

/-- The whole program's trace: the `with sync_playwright()` block always
runs its teardown (stopping the driver) when the block is exited, whether
`run` returned or raised. -/
def programTrace (failAt : Option Nat) : List Event :=
  runTrace failAt ++ [Event.stopPlaywright]

/-- The error reaching the process boundary: the script catches nothing, so
the run's error propagates unchanged through the `with` block. -/
def programError (failAt : Option Nat) : Option Nat :=
  runError failAt

/-- Process exit status: an unhandled error produces a non-zero exit. -/
def exitCode (failAt : Option Nat) : Nat :=
  match programError failAt with
  | none => 0
  | some _ => 1

/-- The browser-automation collaborator's documented default for the
screenshot `full_page` option: when the option is not passed,
`page.screenshot` captures only the viewport (Playwright API default
`full_page=False`). -/
def fullPageDefault : Bool := false

/-- The capture mode actually in effect for a screenshot call: the passed
option when present, the collaborator default otherwise. -/
def effectiveFullPage (arg : Option Bool) : Bool :=
  arg.getD fullPageDefault

/-- The filesystem effect of the screenshot call: the file at `path` is
replaced by the new content; every other path is untouched (the
collaborator overwrites the target file, it does not append or version). -/
def writeArtifact (fs : String → Option String) (path content : String) :
    String → Option String :=
  fun q => if q = path then some content else fs q

/-- Recognises a screenshot-capture event. -/
def isScreenshotEvent : Event → Bool
  | Event.screenshot _ _ => true
  | _ => false

/-- Recognises an operation performed on the Page. -/
def isPageOp : Event → Bool
  | Event.gotoPage _ => true
  | Event.fillByLabel _ _ => true
  | Event.clickByRole _ _ => true
  | Event.waitForURL _ _ => true
  | Event.waitForSelector _ _ => true
  | Event.screenshot _ _ => true
  | _ => false

/-- Recognises an event that tears the browsing environment down. -/
def isSessionRelease : Event → Bool
  | Event.closeBrowser => true
  | Event.stopPlaywright => true
  | _ => false

/-- A trace is well scoped when, from the first teardown event onward, no
page operation occurs: the browsing environment outlives every use of the
page. -/
def wellScoped (tr : List Event) : Bool :=
  (tr.dropWhile (fun e => ! isSessionRelease e)).all (fun e => ! isPageOp e)

theorem execTrace_none (steps : List Event) :
    ∀ i : Nat, execTrace i none steps = steps := by
  induction steps with
  | nil => intro i; rfl
  | cons e rest ih => intro i; simp [execTrace, ih]

theorem execError_none (steps : List Event) :
    ∀ i : Nat, execError i none steps = none := by
  induction steps with
  | nil => intro i; rfl
  | cons e rest ih => intro i; simp [execError, ih]

theorem execTrace_miss (steps : List Event) :
    ∀ i k : Nat, i + steps.length ≤ k →
      execTrace i (some k) steps = steps := by
  induction steps with
  | nil => intro i k _; rfl
  | cons e rest ih =>
    intro i k hk
    simp only [List.length_cons] at hk
    have hne : ¬ ((some k : Option Nat) = some i) := by
      simp only [Option.some.injEq]
      omega
    rw [execTrace, if_neg hne, ih (i + 1) k (by omega)]

theorem execError_miss (steps : List Event) :
    ∀ i k : Nat, i + steps.length ≤ k →
      execError i (some k) steps = none := by
  induction steps with
  | nil => intro i k _; rfl
  | cons e rest ih =>
    intro i k hk
    simp only [List.length_cons] at hk
    have hne : ¬ ((some k : Option Nat) = some i) := by
      simp only [Option.some.injEq]
      omega
    rw [execError, if_neg hne, ih (i + 1) k (by omega)]

theorem execTrace_hit (steps : List Event) :
    ∀ i k : Nat, i ≤ k → k < i + steps.length →
      execTrace i (some k) steps = steps.take (k + 1 - i) := by
  induction steps with
  | nil => intro i k _ hk; simp only [List.length_nil] at hk; omega
  | cons e rest ih =>
    intro i k hik hk
    simp only [List.length_cons] at hk
    by_cases hke : k = i
    · subst hke
      rw [execTrace, if_pos rfl]
      have h1 : k + 1 - k = 1 := by omega
      rw [h1]
      rfl
    · have hne : ¬ ((some k : Option Nat) = some i) := by
        simp only [Option.some.injEq]
        exact hke
      rw [execTrace, if_neg hne, ih (i + 1) k (by omega) (by omega)]
      have h1 : k + 1 - i = (k + 1 - (i + 1)) + 1 := by omega
      rw [h1, List.take_succ_cons]

theorem execError_hit (steps : List Event) :
    ∀ i k : Nat, i ≤ k → k < i + steps.length →
      execError i (some k) steps = some k := by
  induction steps with
  | nil => intro i k _ hk; simp only [List.length_nil] at hk; omega
  | cons e rest ih =>
    intro i k hik hk
    simp only [List.length_cons] at hk
    by_cases hke : k = i
    · subst hke
      rw [execError, if_pos rfl]
    · have hne : ¬ ((some k : Option Nat) = some i) := by
        simp only [Option.some.injEq]
        exact hke
      rw [execError, if_neg hne, ih (i + 1) k (by omega) (by omega)]

theorem runSteps_length : runSteps.length = 11 := rfl

theorem runTrace_none : runTrace none = runSteps :=
  execTrace_none runSteps 0

theorem runError_none : runError none = none :=
  execError_none runSteps 0

theorem runTrace_hit (k : Nat) (hk : k < 11) :
    runTrace (some k) = runSteps.take (k + 1) := by
  have h := execTrace_hit runSteps 0 k (Nat.zero_le k)
    (by rw [runSteps_length] at *; omega)
  simpa [runTrace] using h

theorem runTrace_miss (k : Nat) (hk : 11 ≤ k) :
    runTrace (some k) = runSteps := by
  have h := execTrace_miss runSteps 0 k (by rw [runSteps_length]; omega)
  simpa [runTrace] using h

theorem runError_hit (k : Nat) (hk : k < 11) :
    runError (some k) = some k := by
  have h := execError_hit runSteps 0 k (Nat.zero_le k)
    (by rw [runSteps_length] at *; omega)
  simpa [runError] using h

theorem runError_miss (k : Nat) (hk : 11 ≤ k) :
    runError (some k) = none := by
  have h := execError_miss runSteps 0 k (by rw [runSteps_length]; omega)
  simpa [runError] using h

theorem runTrace_take (f : Option Nat) :
    ∃ n : Nat, runTrace f = runSteps.take n := by
  rcases f with _ | k
  · exact ⟨11, by rw [runTrace_none]; rfl⟩
  · by_cases hk : k < 11
    · exact ⟨k + 1, runTrace_hit k hk⟩
    · exact ⟨11, by rw [runTrace_miss k (by omega)]; rfl⟩

theorem programTrace_ge (k : Nat) (hk : 11 ≤ k) :
    programTrace (some k) = programTrace none := by
  simp [programTrace, runTrace_miss k hk, runTrace_none]

theorem programError_ge (k : Nat) (hk : 11 ≤ k) :
    programError (some k) = none := by
  simp [programError, runError_miss k hk]

theorem mem_trace_mem_steps (f : Option Nat) (e : Event)
    (h : e ∈ programTrace f) : e ∈ runSteps ∨ e = Event.stopPlaywright := by
  obtain ⟨n, hn⟩ := runTrace_take f
  rw [programTrace, hn] at h
  rcases List.mem_append.mp h with h1 | h1
  · exact Or.inl (List.take_subset n runSteps h1)
  · exact Or.inr (List.mem_singleton.mp h1)

/-- Claim C1: the scenario runner executes its steps in the fixed linear
order — launch a headless browser, open an isolated context, open a page,
navigate to the login page, fill the Email field, fill the Password field,
click the Login button, wait for the post-login URL, wait for a
gallery-card element, capture the screenshot, and close the browser — and
on the success path (no step raises) the program trace is exactly this
sequence followed by the context-manager teardown; moreover every trace,
failing or not, is a prefix of the step sequence, so no step begins before
all earlier steps have resolved and no step is skipped. -/
theorem scenario_linear_order :
    programTrace none =
      [ Event.launch true,
        Event.newContext,
        Event.newPage,
        Event.gotoPage loginURL,
        Event.fillByLabel emailLabel emailValue,
        Event.fillByLabel passwordLabel passwordValue,
        Event.clickByRole buttonRole loginButtonName,
        Event.waitForURL dashboardURL none,
        Event.waitForSelector cardSelector (some cardTimeoutMs),
        Event.screenshot screenshotPath none,
        Event.closeBrowser,
        Event.stopPlaywright ] ∧
    ∀ f : Option Nat, ∃ n : Nat, runTrace f = runSteps.take n :=
  ⟨rfl, runTrace_take⟩

/-- Claim C2 is falsified by the code: when the navigation step (spec step
2, position 3 of the trace) raises, the in-run session-release call
`browser.close()` (line 21) does not run — the scenario body has no
try/finally, so the raising statement skips every later statement of
`run`, the release call included. -/
theorem close_skipped_on_goto_failure :
    Event.closeBrowser ∉ programTrace (some 3) := by decide

/-- Claim C2 (amended): for every failure injected at spec steps 2–7
(positions 3–9: navigation, the two fills, the click, both waits, the
screenshot), the in-run session-release step `browser.close()` is skipped;
the browsing environment is instead torn down by the enclosing
`with sync_playwright()` context manager, whose driver-stop action runs as
the terminal action of the run. -/
theorem release_on_failure (f : Option Nat) (k : Nat)
    (hf : f = some k) (h3 : 3 ≤ k) (h9 : k ≤ 9) :
    Event.closeBrowser ∉ programTrace f ∧
    (programTrace f).getLast? = some Event.stopPlaywright := by
  subst hf
  interval_cases k <;> exact ⟨by decide, by decide⟩

theorem release_on_failure_witness :
    Event.closeBrowser ∉ programTrace (some 3) ∧
    (programTrace (some 3)).getLast? = some Event.stopPlaywright :=
  release_on_failure (some 3) 3 rfl (by decide) (by decide)

theorem screenshot_mem_args (f : Option Nat) (p : String) (fp : Option Bool)
    (h : Event.screenshot p fp ∈ programTrace f) :
    p = screenshotPath ∧ fp = none := by
  rcases mem_trace_mem_steps f _ h with hs | hs
  · simp only [runSteps, List.mem_cons, List.mem_singleton,
      List.not_mem_nil, or_false] at hs
    simp only [reduceCtorEq, Event.screenshot.injEq, false_or, or_false] at hs
    exact hs
  · exact absurd hs (by simp)

/-- Claim C3 is falsified by the code: the capture call of the success
trace passes no full-page option (line 19 calls `page.screenshot` with only
`path=`), and the collaborator's documented default for the option is a
viewport-only capture, so the capture step does not take a full-page
screenshot. -/
theorem screenshot_not_fullpage :
    Event.screenshot screenshotPath none ∈ programTrace none ∧
    effectiveFullPage none = false := by decide

/-- Claim C3 (amended): the artifact-capture step takes a screenshot in the
collaborator's default capture mode — viewport-only, since the full-page
option is not passed — and writes it to the single fixed file path
`jules-scratch/verification/verification.png`, overwriting (not appending
to or versioning) any artifact already at that path: every capture event of
every trace carries exactly this path and no full-page option, and writing
the artifact twice leaves the filesystem exactly as the second write alone
leaves it. -/
theorem artifact_fixed_path (f : Option Nat) (p : String) (fp : Option Bool)
    (fs : String → Option String) (c1 c2 q : String)
    (h : Event.screenshot p fp ∈ programTrace f) :
    p = screenshotPath ∧ fp = none ∧ effectiveFullPage fp = false ∧
    writeArtifact (writeArtifact fs p c1) p c2 q = writeArtifact fs p c2 q := by
  obtain ⟨hp, hfp⟩ := screenshot_mem_args f p fp h
  refine ⟨hp, hfp, by rw [hfp]; rfl, ?_⟩
  unfold writeArtifact
  by_cases hq : q = p <;> simp [hq]

theorem artifact_fixed_path_witness :
    screenshotPath = screenshotPath ∧ (none : Option Bool) = none ∧
    effectiveFullPage none = false ∧
    writeArtifact (writeArtifact (fun _ => none) screenshotPath "one")
        screenshotPath "two" screenshotPath
      = writeArtifact (fun _ => none) screenshotPath "two" screenshotPath :=
  artifact_fixed_path none screenshotPath none (fun _ => none) "one" "two"
    screenshotPath (by decide)

/-- Claim C4: the screenshot artifact is captured only after both waits
have resolved — whenever a trace contains a capture event, the first ten
attempted steps are exactly the first ten source steps in order, and both
the URL wait and the selector wait occur among the nine steps strictly
before the capture; consequently a failure at any step before the capture
leaves no capture event in the trace and no artifact is written. -/
theorem capture_after_waits (f : Option Nat) (p : String) (fp : Option Bool)
    (h : Event.screenshot p fp ∈ programTrace f) :
    (runTrace f).take 10 = runSteps.take 10 ∧
    Event.waitForURL dashboardURL none ∈ (runTrace f).take 9 ∧
    Event.waitForSelector cardSelector (some cardTimeoutMs) ∈
      (runTrace f).take 9 := by
  obtain ⟨n, hn⟩ := runTrace_take f
  have hmem : Event.screenshot p fp ∈ runTrace f := by
    rw [programTrace] at h
    rcases List.mem_append.mp h with h1 | h1
    · exact h1
    · exact absurd (List.mem_singleton.mp h1) (by simp)
  have h10 : 10 ≤ n := by
    by_contra hlt
    push_neg at hlt
    rw [hn] at hmem
    have heq : runSteps.take n = (runSteps.take 9).take n := by
      rw [List.take_take]
      congr 1
      omega
    rw [heq] at hmem
    have h2 : Event.screenshot p fp ∈ runSteps.take 9 :=
      List.take_subset n (runSteps.take 9) hmem
    have h9 : runSteps.take 9 =
        [ Event.launch true,
          Event.newContext,
          Event.newPage,
          Event.gotoPage loginURL,
          Event.fillByLabel emailLabel emailValue,
          Event.fillByLabel passwordLabel passwordValue,
          Event.clickByRole buttonRole loginButtonName,
          Event.waitForURL dashboardURL none,
          Event.waitForSelector cardSelector (some cardTimeoutMs) ] := rfl
    rw [h9] at h2
    simp at h2
  have htake9 : (runTrace f).take 9 = runSteps.take 9 := by
    rw [hn, List.take_take]
    congr 1
    omega
  refine ⟨?_, ?_, ?_⟩
  · rw [hn, List.take_take]
    congr 1
    omega
  · rw [htake9]
    decide
  · rw [htake9]
    decide

theorem capture_after_waits_witness :
    (runTrace none).take 10 = runSteps.take 10 ∧
    Event.waitForURL dashboardURL none ∈ (runTrace none).take 9 ∧
    Event.waitForSelector cardSelector (some cardTimeoutMs) ∈
      (runTrace none).take 9 :=
  capture_after_waits none screenshotPath none (by decide)

/-- Claim C5: the identity inputs are located by their accessible labels —
the source uses label-based lookup (`get_by_label`), not structural
position, which the embedding records as `fillByLabel` events — with labels
"Email" and "Password", filled with exactly photographer@yarrow.com and
yarrow; the submit control is located by accessible role "button" with
visible name "Login" and clicked; and a collaborator failure at any of
these lookup steps (positions 4, 5, 6, the not-found case) becomes the
run's propagated error and a non-zero exit. -/
theorem credential_locators :
    Event.fillByLabel "Email" "photographer@yarrow.com" ∈ runTrace none ∧
    Event.fillByLabel "Password" "yarrow" ∈ runTrace none ∧
    Event.clickByRole "button" "Login" ∈ runTrace none ∧
    runError (some 4) = some 4 ∧ exitCode (some 4) = 1 ∧
    runError (some 5) = some 5 ∧ exitCode (some 5) = 1 ∧
    runError (some 6) = some 6 ∧ exitCode (some 6) = 1 := by decide

/-- Claim C6: the content-readiness wait is a selector wait whose arguments
are exactly the fixed selector ".card" and an explicit timeout of exactly
10000 ms — every selector-wait event of every trace carries these
arguments — and when that step (position 8) fails, as it does when the
timeout elapses with no matching element, the run's error propagates with a
non-zero exit and the trace contains no capture event, so no artifact is
written. -/
theorem card_wait_timeout (f : Option Nat) (sel : String) (t : Option Nat)
    (h : Event.waitForSelector sel t ∈ programTrace f) :
    sel = ".card" ∧ t = some 10000 ∧
    cardSelector = ".card" ∧ cardTimeoutMs = 10000 ∧
    runError (some 8) = some 8 ∧ exitCode (some 8) = 1 ∧
    (programTrace (some 8)).countP isScreenshotEvent = 0 := by
  rcases mem_trace_mem_steps f _ h with hs | hs
  · simp only [runSteps, List.mem_cons, List.mem_singleton,
      List.not_mem_nil, or_false] at hs
    simp only [reduceCtorEq, Event.waitForSelector.injEq, false_or,
      or_false] at hs
    exact ⟨hs.1, hs.2, rfl, rfl, by decide, by decide, by decide⟩
  · exact absurd hs (by simp)

theorem card_wait_timeout_witness :
    cardSelector = ".card" ∧ (some cardTimeoutMs : Option Nat) = some 10000 ∧
    cardSelector = ".card" ∧ cardTimeoutMs = 10000 ∧
    runError (some 8) = some 8 ∧ exitCode (some 8) = 1 ∧
    (programTrace (some 8)).countP isScreenshotEvent = 0 :=
  card_wait_timeout none cardSelector (some cardTimeoutMs) (by decide)

/-- Claim C7: the post-login navigation wait targets exactly the fixed URL
http://localhost:3000/dashboard — a literal with no glob metacharacters, so
the collaborator matches the browser's location against it exactly — and
passes no explicit timeout, leaving the collaborator's default navigation
timeout in force: every URL-wait event of every trace carries exactly these
arguments. -/
theorem dashboard_wait_args (f : Option Nat) (u : String) (t : Option Nat)
    (h : Event.waitForURL u t ∈ programTrace f) :
    u = "http://localhost:3000/dashboard" ∧ t = none := by
  rcases mem_trace_mem_steps f _ h with hs | hs
  · simp only [runSteps, List.mem_cons, List.mem_singleton,
      List.not_mem_nil, or_false] at hs
    simp only [reduceCtorEq, Event.waitForURL.injEq, false_or,
      or_false] at hs
    exact hs
  · exact absurd hs (by simp)

theorem dashboard_wait_args_witness :
    dashboardURL = "http://localhost:3000/dashboard" ∧
    (none : Option Nat) = none :=
  dashboard_wait_args none dashboardURL none (by decide)

/-- Claim C8: no error is caught or retried inside the program — whenever a
step raises, the run's error reaches the process boundary unchanged
(nothing between the raising statement and the process handles it) with a
non-zero exit status, the run's trace is exactly the steps up to and
including the raising one (no branching, no resumption after the failure),
and no step is ever attempted twice (the trace has no duplicate events, so
there is no retry). -/
theorem failure_propagation (f : Option Nat) (k : Nat)
    (h : runError f = some k) :
    programError f = some k ∧ exitCode f = 1 ∧
    runTrace f = runSteps.take (k + 1) ∧ (programTrace f).Nodup := by
  rcases f with _ | j
  · rw [runError_none] at h
    cases h
  · by_cases hj : j < 11
    · have hk : j = k := by
        rw [runError_hit j hj] at h
        exact Option.some.inj h
      subst hk
      interval_cases j <;> exact ⟨by decide, by decide, by decide, by decide⟩
    · rw [runError_miss j (by omega)] at h
      cases h

theorem failure_propagation_witness :
    programError (some 3) = some 3 ∧ exitCode (some 3) = 1 ∧
    runTrace (some 3) = runSteps.take 4 ∧ (programTrace (some 3)).Nodup :=
  failure_propagation (some 3) 3 (by decide)

/-- Claim C9: in every run at most one page-creation event occurs; whenever
the page is created, the trace begins with the browser launch, the context
creation and then the page creation, so the session exists before the page
does; and from the first teardown event of the trace onward no page
operation occurs, so the session is released only after all page
operations are done. -/
theorem page_lifetime (f : Option Nat)
    (h : Event.newPage ∈ programTrace f) :
    (programTrace f).countP (fun e => decide (e = Event.newPage)) ≤ 1 ∧
    (programTrace f).take 3 =
      [Event.launch true, Event.newContext, Event.newPage] ∧
    wellScoped (programTrace f) = true := by
  rcases f with _ | k
  · revert h
    decide
  · by_cases hk : k < 11
    · interval_cases k <;> (revert h; decide)
    · rw [programTrace_ge k (by omega)] at h ⊢
      revert h
      decide

theorem page_lifetime_witness :
    (programTrace none).countP (fun e => decide (e = Event.newPage)) ≤ 1 ∧
    (programTrace none).take 3 =
      [Event.launch true, Event.newContext, Event.newPage] ∧
    wellScoped (programTrace none) = true :=
  page_lifetime none (by decide)

/-- Claim C10: the initial navigation of every run targets the fixed URL
http://localhost:3000/login — every navigation event of every trace carries
exactly this URL, which is the /login path under the base URL and is not
the bare base URL http://localhost:3000. -/
theorem initial_navigation (f : Option Nat) (u : String)
    (h : Event.gotoPage u ∈ programTrace f) :
    u = "http://localhost:3000/login" ∧
    loginURL = "http://localhost:3000/login" ∧
    loginURL ≠ baseURL := by
  rcases mem_trace_mem_steps f _ h with hs | hs
  · simp only [runSteps, List.mem_cons, List.mem_singleton,
      List.not_mem_nil, or_false] at hs
    simp only [reduceCtorEq, Event.gotoPage.injEq, false_or,
      or_false] at hs
    exact ⟨hs, rfl, by decide⟩
  · exact absurd hs (by simp)

theorem initial_navigation_witness :
    loginURL = "http://localhost:3000/login" ∧
    loginURL = "http://localhost:3000/login" ∧
    loginURL ≠ baseURL :=
  initial_navigation none loginURL (by decide)

end PhotoPortal
